import Mathlib

/-!
Shallow embedding of the hanibal-ai-chat conversation orchestrator and its
collaborators, translated from the TypeScript sources:
`ChatInterface.tsx`, `MessageBubble.tsx`, `MainWorkspace.tsx` and
`CodeExecutionService.ts`.  JS strings are modelled as Lean strings with
character-list operations (`substring`, `length` count UTF-16 units in JS;
over the ASCII inputs used here the two coincide with characters).
-/

namespace HanibalChat

/-- JS regex word character class (the class written backslash-w):
ASCII letters, digits and underscore. -/
def wordChar (c : Char) : Bool :=
  (('a' ≤ c) && (c ≤ 'z')) || (('A' ≤ c) && (c ≤ 'Z')) ||
  (('0' ≤ c) && (c ≤ '9')) || (c = '_')

/-- Whitespace removed by JS String.prototype.trim (ASCII subset). -/
def wsChar (c : Char) : Bool :=
  (c = ' ') || (c = '\t') || (c = '\n') || (c = '\r') || (c = '\x0b') || (c = '\x0c')

/-- Drop leading whitespace characters. -/
def dropLeadWs : List Char → List Char
  | [] => []
  | c :: cs => if wsChar c then dropLeadWs cs else c :: cs

/-- Model of JS String.prototype.trim: strip whitespace at both ends. -/
def jsTrim (s : String) : String :=
  String.mk ((dropLeadWs (dropLeadWs s.data).reverse).reverse)

/-- Model of JS String.prototype.toLowerCase (ASCII). -/
def lowerStr (s : String) : String :=
  String.mk (s.data.map Char.toLower)

/-- JS String length (character count). -/
def strLen (s : String) : Nat := s.data.length

/-- JS String.prototype.substring(0, n). -/
def strTake (s : String) (n : Nat) : String := String.mk (s.data.take n)

/-- Does `p` occur at the head of `l`? -/
def leadMatch : List Char → List Char → Bool
  | [], _ => true
  | _ :: _, [] => false
  | p :: ps, c :: cs => (p = c) && leadMatch ps cs

/-- Does `pat` occur as a contiguous run anywhere in `l`? -/
def subOccurs (pat : List Char) : List Char → Bool
  | [] => leadMatch pat []
  | c :: cs => leadMatch pat (c :: cs) || subOccurs pat cs

/-- Model of JS String.prototype.includes. -/
def strContains (s pat : String) : Bool := subOccurs pat.data s.data

/-- Model of JS String.prototype.startsWith. -/
def strStartsWith (s pat : String) : Bool := leadMatch pat.data s.data

/-- Model of JS String.prototype.endsWith. -/
def strEndsWith (s pat : String) : Bool := leadMatch pat.data.reverse s.data.reverse

/-- Truthiness of a nullable JS string: non-null and non-empty. -/
def optTruthy : Option String → Bool
  | none => false
  | some s => s ≠ ""

/-- Value of a nullable JS string, defaulting to the empty string. -/
def optStr : Option String → String
  | none => ""
  | some s => s

/-- Message role, from the Message type. -/
inductive Role
  | user
  | assistant
  deriving DecidableEq, Repr

/-- One transcript entry, from the Message interface. -/
structure Message where
  id : String
  role : Role
  content : String
  timestamp : Nat := 0
  isLoading : Bool := false
  isError : Bool := false
  model : Option String := none
  images : List String := []
  deriving DecidableEq, Repr

/-- One `{role, content}` entry of a provider payload. -/
structure ChatMsg where
  role : Role
  content : String
  deriving DecidableEq, Repr

/-- Google file-upload reference carried by an uploaded file. -/
structure GoogleFileRef where
  uri : String
  mimeType : String
  name : String
  deriving DecidableEq, Repr

/-- One user-attached file, from the UploadedFile interface in ChatInterface.tsx. -/
structure UploadedFile where
  id : String
  name : String
  type : String
  size : Nat
  content : String
  preview : Option String := none
  analysis : Option String := none
  uploadedFile : Option GoogleFileRef := none
  deriving DecidableEq, Repr

/-- A runnable code fragment handed to the workspace. -/
structure CodeFragment where
  code : String
  language : String
  deriving DecidableEq, Repr

/-- Sandbox verdict, from ExecutionResult.status. -/
structure SandboxStatus where
  id : Nat
  description : String
  deriving DecidableEq, Repr

/-- Execution-collaborator response, from the ExecutionResult interface.
Nullable string fields are Options; truthiness checks use `optTruthy`. -/
structure ExecutionResult where
  stdout : Option String
  stderr : Option String
  compile_output : Option String
  message : Option String
  status : SandboxStatus
  deriving DecidableEq, Repr

/-- One supported sandbox language, from CodeExecutionService.ts. -/
structure SupportedLanguage where
  id : Nat
  name : String
  ext : String
  aliases : List String
  deriving DecidableEq, Repr

/-- The SUPPORTED_LANGUAGES catalog of CodeExecutionService.ts. -/
def SUPPORTED_LANGUAGES : List SupportedLanguage := [
  ⟨93, "JavaScript (Node.js 18.15.0)", "js", ["javascript", "js", "node", "nodejs", "node.js"]⟩,
  ⟨71, "Python (3.10.0)", "py", ["python", "py", "python3"]⟩,
  ⟨70, "Python (2.7.18)", "py", ["python2", "py2"]⟩,
  ⟨74, "TypeScript", "ts", ["typescript", "ts"]⟩,
  ⟨62, "Java", "java", ["java"]⟩,
  ⟨51, "C#", "cs", ["csharp", "cs"]⟩,
  ⟨54, "C++", "cpp", ["cpp", "c++"]⟩,
  ⟨50, "C", "c", ["c"]⟩,
  ⟨1, "Bash", "sh", ["bash", "sh", "shell"]⟩,
  ⟨60, "Shell", "sh", ["shell", "bash", "sh"]⟩,
  ⟨63, "JavaScript", "js", ["javascript", "js"]⟩,
  ⟨82, "SQL", "sql", ["sql"]⟩,
  ⟨78, "Kotlin", "kt", ["kotlin", "kt"]⟩,
  ⟨83, "Swift", "swift", ["swift"]⟩,
  ⟨68, "PHP", "php", ["php"]⟩,
  ⟨73, "Rust", "rs", ["rust", "rs"]⟩,
  ⟨72, "Ruby", "rb", ["ruby", "rb"]⟩]

/-- The flattened alias set used by both code-block scans in MessageBubble.tsx. -/
def supportedLanguageAliases : List String :=
  SUPPORTED_LANGUAGES.map SupportedLanguage.aliases |>.flatten

/-- Set membership test on the alias set. -/
def aliasHas (s : String) : Bool := supportedLanguageAliases.contains s

/-- Character budget for raw file content, from ChatInterface.tsx. -/
def MAX_FILE_CONTENT_CHARS : Nat := 50000

/-- History bound for the outbound provider payload, from ChatInterface.tsx. -/
def MAX_CONVERSATION_HISTORY_MESSAGES : Nat := 10

/-- The text-like test of formatFilesForMessage (mime type or extension). -/
def isTextLikeFile (f : UploadedFile) : Bool :=
  strStartsWith f.type ("text/") || strContains f.type ("json") ||
  strContains f.type ("csv") || strEndsWith f.name (".md") ||
  strEndsWith f.name (".txt") || strEndsWith f.name (".json") ||
  strEndsWith f.name (".csv")

/-- One file block of formatFilesForMessage.  The size display
`formatFileSize` uses floating-point formatting, abstracted here as the
parameter `fmtSize`. -/
def renderFileEntry (fmtSize : Nat → String) (index : Nat) (f : UploadedFile) : String :=
  let header := "\n" ++ toString (index + 1) ++ ". **" ++ f.name ++ "** (" ++
    f.type ++ ", " ++ fmtSize f.size ++ ")\n"
  let body :=
    if optTruthy f.analysis then "\n" ++ optStr f.analysis ++ "\n\n"
    else if isTextLikeFile f then
      let truncated := strLen f.content > MAX_FILE_CONTENT_CHARS
      let shown := if truncated then strTake f.content MAX_FILE_CONTENT_CHARS else f.content
      "Content:\n\x60\x60\x60\n" ++ shown ++ "\n\x60\x60\x60\n" ++
      (if truncated then
        "[Content truncated - showing first " ++ toString MAX_FILE_CONTENT_CHARS ++
        " characters of " ++ toString (strLen f.content) ++ " total]\n"
      else "")
    else if strStartsWith f.type ("image/") then "[Image file: " ++ f.name ++ "]\n"
    else "[File: " ++ f.name ++ " - " ++ f.type ++ "]\n"
  header ++ body

/-- formatFilesForMessage of ChatInterface.tsx. -/
def formatFilesForMessage (fmtSize : Nat → String) (files : List UploadedFile) : String :=
  if files.length = 0 then ""
  else "\n\n--- Uploaded Files ---\n" ++
    String.join ((files.enum).map (fun p => renderFileEntry fmtSize p.1 p.2))

/-- JS Array.prototype.slice(-n) for positive n: the final segment of
length at most n. -/
def sliceLast (l : List α) (n : Nat) : List α := l.drop (l.length - n)

/-- The outbound chat payload: bounded prior history plus the current
user message (ChatInterface.tsx handleSendMessage). -/
def chatPayload (priorMessages : List Message) (messageContent : String) : List ChatMsg :=
  ((sliceLast priorMessages MAX_CONVERSATION_HISTORY_MESSAGES).map
    (fun m => (⟨m.role, m.content⟩ : ChatMsg))) ++ [⟨Role.user, messageContent⟩]

/-- The state read by handleSendMessage when a turn is submitted. -/
structure TurnState where
  messages : List Message
  input : String
  uploadedFiles : List UploadedFile
  isWebSearchEnabled : Bool
  providerId : String
  modelId : String
  deriving DecidableEq, Repr

/-- Which path a submitted turn takes. -/
inductive TurnPath
  | noTurn
  | webSearchPath
  | imageGenPath
  | chatPath
  deriving DecidableEq, Repr

/-- Mode dispatch of handleSendMessage: guard, then web search, then
image generation, then chat. -/
def dispatchPath (s : TurnState) : TurnPath :=
  if jsTrim s.input = "" ∧ s.uploadedFiles.length = 0 then TurnPath.noTurn
  else if s.isWebSearchEnabled = true ∧ jsTrim s.input ≠ "" then TurnPath.webSearchPath
  else if s.providerId = "rapidapi" then TurnPath.imageGenPath
  else TurnPath.chatPath

/-- External-collaborator invocations observable from the orchestrator. -/
inductive ExtCall
  | webSearchCall (query : String)
  | analysisCall (fileName : String)
  | providerCall (providerId : String) (modelId : String) (payload : List ChatMsg)
  | googleFilesCall (text : String) (files : List GoogleFileRef) (modelId : String)
  | imageGenCall (prompt : String) (backend : String)
  | executeCall (sourceCode : String) (language : String) (stdinArg : String)
  deriving DecidableEq, Repr

/-- Files carrying a Google upload reference (truthiness filter). -/
def filesWithUploads (files : List UploadedFile) : List UploadedFile :=
  files.filter (fun f => f.uploadedFile.isSome)

/-- The ordered external calls a submitted turn issues when run to
completion in isolation (handleSendMessage / handleWebSearch /
handleGenerateImage). -/
def submitCalls (fmtSize : Nat → String) (s : TurnState) : List ExtCall :=
  match dispatchPath s with
  | TurnPath.noTurn => []
  | TurnPath.webSearchPath => [ExtCall.webSearchCall s.input]
  | TurnPath.imageGenPath =>
    if jsTrim s.input = "" then []
    else [ExtCall.imageGenCall s.input
      (if strContains s.modelId ("midjourney") then "rapidapi/midjourney" else "rapidapi/flux")]
  | TurnPath.chatPath =>
    if (filesWithUploads s.uploadedFiles).length ≠ 0 ∧ s.providerId = "google" then
      [ExtCall.googleFilesCall s.input
        ((filesWithUploads s.uploadedFiles).filterMap (fun f => f.uploadedFile)) s.modelId]
    else
      let messageContent := s.input ++ formatFilesForMessage fmtSize s.uploadedFiles
      if s.providerId = "openrouter" then
        [ExtCall.providerCall ("openrouter") s.modelId (chatPayload s.messages messageContent)]
      else if s.providerId = "google" then
        [ExtCall.providerCall ("google") s.modelId (chatPayload s.messages messageContent)]
      else []

/-- The transcript entries a submitted turn appends synchronously at its
start (user entry plus assistant placeholder); `now1`, `now2` model the
two Date.now() readings used for ids and timestamps. -/
def submitAppends (fmtSize : Nat → String) (s : TurnState) (now1 now2 : Nat) : List Message :=
  match dispatchPath s with
  | TurnPath.noTurn => []
  | TurnPath.webSearchPath =>
    [{ id := "user-search-" ++ toString now1, role := Role.user,
       content := "🌐 Web search: " ++ s.input, timestamp := now1 },
     { id := "loading-search-" ++ toString now2, role := Role.assistant,
       content := "", timestamp := now2, isLoading := true, model := some ("web-search") }]
  | TurnPath.imageGenPath =>
    if jsTrim s.input = "" then []
    else
      let tag := if strContains s.modelId ("midjourney") then "rapidapi/midjourney" else "rapidapi/flux"
      [{ id := "user-img-" ++ toString now1, role := Role.user,
         content := "🎨 Image prompt: " ++ s.input, timestamp := now1 },
       { id := "loading-img-" ++ toString now2, role := Role.assistant,
         content := "", timestamp := now2, isLoading := true, model := some tag }]
  | TurnPath.chatPath =>
    if (filesWithUploads s.uploadedFiles).length ≠ 0 ∧ s.providerId = "google" then
      [{ id := "user-" ++ toString now1, role := Role.user,
         content := s.input ++ "\n\n--- Files Attached ---\n" ++
           String.intercalate (", ") (s.uploadedFiles.map UploadedFile.name),
         timestamp := now1 },
       { id := "loading-" ++ toString now2, role := Role.assistant,
         content := "", timestamp := now2, isLoading := true, model := some s.modelId }]
    else
      [{ id := "user-" ++ toString now1, role := Role.user,
         content := s.input ++ formatFilesForMessage fmtSize s.uploadedFiles, timestamp := now1 },
       { id := "loading-" ++ toString now2, role := Role.assistant,
         content := "", timestamp := now2, isLoading := true, model := some s.modelId }]

/-- Success resolution of a placeholder: map over the transcript and
update the entry with the matching id in place. -/
def resolveSuccess (msgs : List Message) (targetId : String) (responseText : String) : List Message :=
  msgs.map (fun m =>
    if m.id = targetId then { m with content := responseText, isLoading := false } else m)

/-- Success resolution on the image path: also sets the images list. -/
def resolveImageSuccess (msgs : List Message) (targetId contentText imageUrl : String) : List Message :=
  msgs.map (fun m =>
    if m.id = targetId then
      { m with content := contentText, images := [imageUrl], isLoading := false }
    else m)

/-- Failure resolution: every error handler filters out the entry with
the placeholder id and appends a fresh error message at the end. -/
def resolveFailure (msgs : List Message) (errorMsg : Message) : List Message :=
  (msgs.filter (fun m => m.id ≠ errorMsg.id)) ++ [errorMsg]

/-- The fresh error message built by the chat-path catch handler. -/
def chatErrorMessage (targetId errText : String) (ts : Nat) (modelId : String) : Message :=
  { id := targetId, role := Role.assistant, content := "❌ Error: " ++ errText,
    timestamp := ts, isError := true, model := some modelId }

/-- Execution-output composition of ChatInterface.tsx handleRunCode:
sections in fixed order, empty sections omitted, fixed message when
everything is empty, and a final trim. -/
def composeOutput (stdinArg : String) (r : ExecutionResult) : String :=
  let s0 := if stdinArg ≠ "" then "Input:\n" ++ stdinArg ++ "\n\n" else ""
  let s1 := s0 ++ (if optTruthy r.stdout then "Output:\n" ++ optStr r.stdout ++ "\n\n" else "")
  let s2 := s1 ++ (if optTruthy r.stderr then "Error:\n" ++ optStr r.stderr ++ "\n\n" else "")
  let s3 := s2 ++ (if optTruthy r.compile_output then "Compile Output:\n" ++ optStr r.compile_output ++ "\n\n" else "")
  let s4 := s3 ++ (if optTruthy r.message then "Message: " ++ optStr r.message ++ "\n" else "")
  jsTrim (if jsTrim s4 = "" then "Code executed successfully with no output" else s4)

/-- Three backtick characters, the fence delimiter. -/
def backtick3 : List Char := ['\x60', '\x60', '\x60']

/-- A piece of message text: either outside any fenced block, or one
fenced block (language tag, body). -/
inductive RawSeg
  | plain (content : String)
  | fence (lang : String) (body : String)
  deriving DecidableEq, Repr

/-- Longest run of word characters at the head (the greedy word-star of
the fence regex). -/
def takeWordRun : List Char → List Char × List Char
  | [] => ([], [])
  | c :: cs =>
    if wordChar c then
      let r := takeWordRun cs
      (c :: r.1, r.2)
    else ([], c :: cs)

/-- Split at the earliest closing newline-plus-fence (the lazy body of
the fence regex): returns the body before it and the text after it. -/
def splitAtClose : List Char → Option (List Char × List Char)
  | [] => none
  | c :: cs =>
    if (c == '\n') && leadMatch backtick3 cs then some ([], cs.drop 3)
    else
      match splitAtClose cs with
      | some pr => some (c :: pr.1, pr.2)
      | none => none

/-- Emit accumulated (reversed) plain text, if any. -/
def flushPending (pending : List Char) : List RawSeg :=
  if pending.isEmpty then [] else [RawSeg.plain (String.mk pending.reverse)]

/-- Fuel-indexed scanner for the fenced-block regex used by both scans in
MessageBubble.tsx; advances one character on a failed match attempt, past
the whole match on success.  Fuel bounds the number of steps; the initial
fuel equals the text length, which suffices since every step consumes at
least one character. -/
def scanAux : Nat → List Char → List Char → List RawSeg
  | 0, pending, rest => flushPending (rest.reverse ++ pending)
  | Nat.succ fuel, pending, cs =>
    match cs with
    | [] => flushPending pending
    | c :: cs' =>
      if leadMatch backtick3 cs then
        let wr := takeWordRun (cs.drop 3)
        match wr.2 with
        | '\n' :: r2 =>
          match splitAtClose r2 with
          | some pr =>
            flushPending pending ++
              (RawSeg.fence (String.mk wr.1) (String.mk pr.1) :: scanAux fuel [] pr.2)
          | none => scanAux fuel (c :: pending) cs'
        | _ => scanAux fuel (c :: pending) cs'
      else scanAux fuel (c :: pending) cs'

/-- All fenced-block matches of a message text, with the plain text
between them, in source order. -/
def scanFenced (s : String) : List RawSeg := scanAux s.data.length [] s.data

/-- The default tag used when a fence carries no language. -/
def plaintextTag : String := "plaintext"

/-- Line count of a code body as computed in processMessageContent. -/
def lineCount (code : String) : Nat := (code.data.filter (fun c => c == '\n')).length + 1

/-- Render-scan runnability: the lowercased tag, defaulting to
"plaintext" when empty, must be a supported alias. -/
def renderRunnableTag (lang : String) : Bool :=
  aliasHas (if lowerStr lang = "" then plaintextTag else lowerStr lang)

/-- One element of the rendered message: markdown text or a code block. -/
inductive MsgElement
  | textE (content : String)
  | codeE (content : String) (language : String) (hasScroll : Bool)
  deriving DecidableEq, Repr

/-- The element the render scan produces for one segment: runnable
fences become code blocks, other fences render as plain text with the
fence markers stripped. -/
def segElement (seg : RawSeg) : MsgElement :=
  match seg with
  | RawSeg.plain t => MsgElement.textE t
  | RawSeg.fence lang body =>
    if renderRunnableTag lang then
      MsgElement.codeE body (if lang = "" then plaintextTag else lang)
        (decide (lineCount body > 15 ∨ strLen body > 500))
    else MsgElement.textE body

/-- Segment list to element list. -/
def elementsOfSegs (segs : List RawSeg) : List MsgElement := segs.map segElement

/-- processMessageContent of MessageBubble.tsx. -/
def processMessageContent (s : String) : List MsgElement := elementsOfSegs (scanFenced s)

/-- The code fragment of a rendered element, if it is a code block. -/
def elemFrag : MsgElement → Option CodeFragment
  | MsgElement.codeE c l _ => some ⟨c, l⟩
  | MsgElement.textE _ => none

/-- The runnable fragments of the render-time scan, in order. -/
def renderCodeFragments (s : String) : List CodeFragment :=
  (processMessageContent s).filterMap elemFrag

/-- Handoff-scan runnability: an untagged fence is always included; a
tagged fence is included when its lowercased tag is a supported alias. -/
def handoffRunnableTag (lang : String) : Bool :=
  decide (lang = "" ∨ aliasHas (lowerStr lang) = true)

/-- The fragment the workspace-handoff scan produces for one segment.
The body is trimmed and the language lowercased. -/
def handoffSeg : RawSeg → Option CodeFragment
  | RawSeg.plain _ => none
  | RawSeg.fence lang body =>
    if handoffRunnableTag lang = true then
      some ⟨jsTrim body, if lang = "" then plaintextTag else lowerStr lang⟩
    else none

/-- Segment list to handoff fragment list. -/
def fragmentsOfSegs (segs : List RawSeg) : List CodeFragment := segs.filterMap handoffSeg

/-- runnableCodeBlocks of MessageBubble.tsx. -/
def runnableCodeBlocks (s : String) : List CodeFragment := fragmentsOfSegs (scanFenced s)

/-- The input-reading-call heuristic of MainWorkspace.tsx handleRunCode. -/
def needsInputHeuristic (code : String) : Bool :=
  strContains code ("input(") || strContains code ("readline(") ||
  strContains code ("readLine(") || strContains code ("cin >>") ||
  strContains code ("scanf(") || strContains code ("nextInt(") ||
  strContains code ("nextLine(") || strContains code ("next(")

/-- Execution-state record of the workspace. -/
structure ExecState where
  isRunning : Bool
  output : String
  deriving DecidableEq, Repr

/-- Outcome of the workspace run handler: either short-circuited before
any collaborator call, or submitted to the execution flow. -/
inductive WsOutcome
  | blocked (state : ExecState) (expandInput : Bool)
  | submitted (code : String) (language : String) (stdinArg : String)
  deriving DecidableEq, Repr

/-- The fixed message shown when input is required but missing. -/
def needsInputMessage : String :=
  "This code needs input. Please provide the required input in the input box above."

/-- handleRunCode of MainWorkspace.tsx: pre-check for required input,
otherwise hand the fragment to the execution flow. -/
def wsRunCode (code language stdinArg : String) : WsOutcome :=
  if needsInputHeuristic code = true ∧ jsTrim stdinArg = "" then
    WsOutcome.blocked ⟨false, needsInputMessage⟩ true
  else WsOutcome.submitted code language stdinArg

/-- The collaborator calls a workspace run outcome performs. -/
def wsCalls : WsOutcome → List ExtCall
  | WsOutcome.blocked _ _ => []
  | WsOutcome.submitted c l i => [ExtCall.executeCall c l i]

/-- Raw sandbox response body (fields still base64-encoded), from
CodeExecutionService.executeCode. -/
structure SandboxResponse where
  stdout : Option String
  stderr : Option String
  compile_output : Option String
  message : Option String
  status : SandboxStatus
  deriving DecidableEq, Repr

/-- `x ? safeDecode(x) : null` of executeCode, with the base64 decoder
abstracted as the parameter `decode`. -/
def decodeField (decode : String → String) (field : Option String) : Option String :=
  if optTruthy field then some (decode (optStr field)) else none

/-- Default detail used when the failure response has no message. -/
def noExtraInfo : String := "No additional error information"

/-- The detail part of the failure message: first truthy of decoded
stderr, decoded compile output, and the response message (defaulted). -/
def failDetail (decode : String → String) (resp : SandboxResponse) : String :=
  let dstderr := decodeField decode resp.stderr
  let dcompile := decodeField decode resp.compile_output
  let dmsg := if optTruthy resp.message then optStr resp.message else noExtraInfo
  if optTruthy dstderr then optStr dstderr
  else if optTruthy dcompile then optStr dcompile
  else dmsg

/-- Response handling of CodeExecutionService.executeCode: a status id
above 3 becomes a thrown error (rewrapped by the outer catch with the
"Failed to execute code" tag); otherwise the decoded result is
returned. -/
def responsePhase (decode : String → String) (resp : SandboxResponse) : Except String ExecutionResult :=
  if resp.status.id > 3 then
    Except.error ("Failed to execute code: Execution failed (" ++
      resp.status.description ++ "): " ++ failDetail decode resp)
  else
    Except.ok
      { stdout := decodeField decode resp.stdout,
        stderr := decodeField decode resp.stderr,
        compile_output := decodeField decode resp.compile_output,
        message := if optTruthy resp.message then resp.message else none,
        status := resp.status }

/-- Is a segment a tagged fence or plain text (no untagged fence)? -/
def fenceTagged : RawSeg → Bool
  | RawSeg.fence l _ => l ≠ ""
  | RawSeg.plain _ => true

/-- Is a call a file-analysis invocation? -/
def isAnalysisCall : ExtCall → Bool
  | ExtCall.analysisCall _ => true
  | _ => false

/-- Is a call a text-generation provider invocation? -/
def isProviderCall : ExtCall → Bool
  | ExtCall.providerCall _ _ _ => true
  | _ => false

/-- A concrete size formatter standing in for formatFileSize. -/
def demoFmt : Nat → String := fun n => toString n ++ " Bytes"

/-- The assistant placeholder of the first of two overlapping turns. -/
def c1Placeholder : Message :=
  { id := "loading-1", role := Role.assistant, content := "", timestamp := 2,
    isLoading := true, model := some ("m") }

/-- A transcript with two in-flight turns: the first placeholder is at
index 1, not at the end. -/
def c1Msgs : List Message :=
  [{ id := "user-1", role := Role.user, content := "first", timestamp := 1 },
   c1Placeholder,
   { id := "user-2", role := Role.user, content := "second", timestamp := 3 },
   { id := "loading-2", role := Role.assistant, content := "", timestamp := 4,
     isLoading := true, model := some ("m") }]

/-- The error message the chat catch handler builds for the first turn. -/
def c1Err : Message := chatErrorMessage "loading-1" "boom" 5 "m"

/-- A message consisting of a single untagged fenced block. -/
def c2Untagged : String := "\x60\x60\x60\nfoo\n\x60\x60\x60"

/-- A message with one fenced block tagged "Python". -/
def c2Tagged : String := "hi\n\x60\x60\x60Python\nx = 1\n\x60\x60\x60\ntail"

/-- An attached text file that has not been analyzed. -/
def c3File : UploadedFile :=
  { id := "f1", name := "notes.txt", type := "text/plain", size := 3, content := "abc" }

/-- A submitted chat turn carrying the unanalyzed file. -/
def c3State : TurnState :=
  { messages := [], input := "hi", uploadedFiles := [c3File],
    isWebSearchEnabled := false, providerId := "openrouter", modelId := "gpt" }

/-- An attached file whose analysis has already completed. -/
def c3AnalyzedFile : UploadedFile :=
  { id := "f2", name := "a.png", type := "image/png", size := 5, content := "x",
    analysis := some ("report") }

/-- A text file whose content exceeds the 50000-character budget. -/
def c4BigFile : UploadedFile :=
  { id := "f3", name := "big.txt", type := "text/plain", size := 50001,
    content := String.mk (List.replicate 50001 'a') }

/-- A guarded turn with web-search mode on and non-empty text. -/
def c5State : TurnState :=
  { messages := [], input := "hi", uploadedFiles := [],
    isWebSearchEnabled := true, providerId := "openrouter", modelId := "m" }

/-- A turn with empty text and no files: the guard case. -/
def c6EmptyState : TurnState :=
  { messages := [], input := "", uploadedFiles := [],
    isWebSearchEnabled := false, providerId := "openrouter", modelId := "m" }

/-- A turn with whitespace-only text but an attached file, on the
image-generation provider. -/
def c6ImgState : TurnState :=
  { messages := [], input := " ", uploadedFiles := [c3File],
    isWebSearchEnabled := false, providerId := "rapidapi", modelId := "rapidapi-flux" }

/-- A Google upload reference carried by an attached file. -/
def c7Ref : GoogleFileRef := ⟨"uri1", "image/png", "a.png"⟩

/-- An attached file holding a Google upload reference. -/
def c7File : UploadedFile :=
  { id := "g1", name := "a.png", type := "image/png", size := 5,
    content := "data:image/png;base64,xyz", uploadedFile := some c7Ref }

/-- Eleven prior transcript messages. -/
def c7Prior : List Message :=
  (List.range 11).map (fun i =>
    { id := "m-" ++ toString i, role := Role.user,
      content := "old " ++ toString i, timestamp := i })

/-- A chat turn on the Google provider with an uploaded-file reference
and eleven prior messages. -/
def c7State : TurnState :=
  { messages := c7Prior, input := "hi", uploadedFiles := [c7File],
    isWebSearchEnabled := false, providerId := "google", modelId := "gem" }

/-- A chat turn on the fallback branch with eleven prior messages. -/
def c7FallbackState : TurnState :=
  { messages := c7Prior, input := "hi", uploadedFiles := [],
    isWebSearchEnabled := false, providerId := "openrouter", modelId := "gpt" }

/-- A code fragment containing a Python input-reading call. -/
def c9Code : String := "x = input()\nprint(x)"

/-- A sandbox response with a failure status (id 6) and base64 stderr. -/
def c10FailResp : SandboxResponse :=
  { stdout := none, stderr := some ("err"), compile_output := none,
    message := none, status := ⟨6, "Runtime Error (NZEC)"⟩ }

/-- A sandbox response with the accepted status (id 3). -/
def c10OkResp : SandboxResponse :=
  { stdout := some ("out"), stderr := none, compile_output := none,
    message := none, status := ⟨3, "Accepted"⟩ }

lemma leadMatch_append (p r : List Char) : leadMatch p (p ++ r) = true := by
  induction p with
  | nil => rfl
  | cons c cs ih => simp [leadMatch, ih]

lemma subOccurs_of_leadMatch (p l : List Char) (h : leadMatch p l = true) :
    subOccurs p l = true := by
  cases l with
  | nil => simpa [subOccurs] using h
  | cons c cs => simp [subOccurs, h]

lemma subOccurs_cons (p : List Char) (c : Char) (cs : List Char)
    (h : subOccurs p cs = true) : subOccurs p (c :: cs) = true := by
  simp [subOccurs, h]

lemma subOccurs_append_left (p l r : List Char) (h : subOccurs p r = true) :
    subOccurs p (l ++ r) = true := by
  induction l with
  | nil => simpa using h
  | cons c cs ih => simpa using subOccurs_cons p c (cs ++ r) ih

lemma strContains_suffix (a b : String) : strContains (a ++ b) b = true := by
  simp only [strContains, String.data_append]
  refine subOccurs_append_left _ _ _ (subOccurs_of_leadMatch _ _ ?_)
  simpa using leadMatch_append b.data []

lemma strContains_concat (a b c : String) : strContains (a ++ b ++ c) b = true := by
  simp only [strContains, String.data_append, List.append_assoc]
  exact subOccurs_append_left _ _ _
    (subOccurs_of_leadMatch _ _ (leadMatch_append b.data c.data))

lemma dropLeadWs_eq_nil_iff (l : List Char) :
    dropLeadWs l = [] ↔ l.all wsChar = true := by
  induction l with
  | nil => simp [dropLeadWs]
  | cons c cs ih =>
    by_cases h : wsChar c = true
    · simp [dropLeadWs, h, ih]
    · simp [dropLeadWs, h]

lemma all_dropLeadWs (l : List Char) :
    (dropLeadWs l).all wsChar = l.all wsChar := by
  induction l with
  | nil => rfl
  | cons c cs ih =>
    by_cases h : wsChar c = true
    · simp [dropLeadWs, h, ih]
    · simp [dropLeadWs, h]

lemma jsTrim_eq_empty_iff (s : String) :
    jsTrim s = "" ↔ s.data.all wsChar = true := by
  rw [jsTrim, String.ext_iff]
  show (dropLeadWs (dropLeadWs s.data).reverse).reverse = [] ↔ _
  rw [List.reverse_eq_nil_iff, dropLeadWs_eq_nil_iff, List.all_reverse, all_dropLeadWs]

lemma jsTrim_ne_empty (s : String) (c : Char) (hc : c ∈ s.data)
    (hw : wsChar c = false) : jsTrim s ≠ "" := by
  rw [Ne, jsTrim_eq_empty_iff]
  intro hall
  have := List.all_eq_true.mp hall c hc
  rw [hw] at this
  exact Bool.noConfusion this

lemma lowerStr_eq_empty_iff (s : String) : lowerStr s = "" ↔ s = "" := by
  constructor
  · intro h
    have hd := congrArg String.data h
    simp only [lowerStr] at hd
    have hnil : s.data.map Char.toLower = [] := hd
    rw [List.map_eq_nil_iff] at hnil
    exact String.ext_iff.mpr (by simpa using hnil)
  · intro h
    subst h
    rfl

lemma frag_agree_aux (segs : List RawSeg) (h : segs.all fenceTagged = true) :
    fragmentsOfSegs segs =
      ((elementsOfSegs segs).filterMap elemFrag).map
        (fun fr => (⟨jsTrim fr.code, lowerStr fr.language⟩ : CodeFragment)) := by
  induction segs with
  | nil => rfl
  | cons seg rest ih =>
    rw [List.all_cons, Bool.and_eq_true] at h
    have ih' := ih h.2
    cases seg with
    | plain t =>
      simpa [fragmentsOfSegs, elementsOfSegs, handoffSeg, segElement, elemFrag] using ih'
    | fence lang body =>
      have hl : lang ≠ "" := by simpa [fenceTagged] using h.1
      have hlow : ¬(lowerStr lang = "") := fun hc => hl ((lowerStr_eq_empty_iff lang).mp hc)
      by_cases ha : aliasHas (lowerStr lang) = true
      · have hrt : renderRunnableTag lang = true := by
          simp [renderRunnableTag, hlow, ha]
        have hht : handoffRunnableTag lang = true := by
          simp [handoffRunnableTag, ha]
        simpa [fragmentsOfSegs, elementsOfSegs, handoffSeg, segElement, elemFrag,
          hrt, hht, hl] using ih'
      · have hrt : renderRunnableTag lang = false := by
          simp [renderRunnableTag, hlow, ha]
        have hht : handoffRunnableTag lang = false := by
          simp [handoffRunnableTag, ha, hl]
        simpa [fragmentsOfSegs, elementsOfSegs, handoffSeg, segElement, elemFrag,
          hrt, hht] using ih'

/-- C1: the claim says that on both success and failure the placeholder
entry is mutated in place by id with its transcript position unchanged.
The failure handlers instead filter the entry out and append a fresh
error message: with a second turn in flight behind the placeholder, the
resolved entry moves from index 1 to the end of the transcript, so the
id sequence changes. -/
theorem c1_counterexample :
    c1Msgs.map Message.id = ["user-1", "loading-1", "user-2", "loading-2"] ∧
    (resolveFailure c1Msgs c1Err).map Message.id =
      ["user-1", "user-2", "loading-2", "loading-1"] := by
  decide

/-- C1 (amended): success resolutions mutate in place by id — the id
sequence (hence every position) is unchanged, untouched entries survive
unchanged, and the target entry keeps its identity with only content and
isLoading updated.  Failure resolution removes the entry with the
placeholder id and appends the fresh error message at the end, so the
placeholder position is preserved on failure only when it was last. -/
theorem c1_amended :
    (∀ (msgs : List Message) (targetId responseText : String),
      (resolveSuccess msgs targetId responseText).map Message.id = msgs.map Message.id) ∧
    (∀ (msgs : List Message) (targetId contentText imageUrl : String),
      (resolveImageSuccess msgs targetId contentText imageUrl).map Message.id =
        msgs.map Message.id) ∧
    (∀ (msgs : List Message) (targetId responseText : String) (m : Message),
      m ∈ msgs →
        (m.id ≠ targetId → m ∈ resolveSuccess msgs targetId responseText) ∧
        (m.id = targetId →
          ({ m with content := responseText, isLoading := false } : Message) ∈
            resolveSuccess msgs targetId responseText)) ∧
    (∀ (msgs : List Message) (err : Message),
      (resolveFailure msgs err).map Message.id =
        ((msgs.map Message.id).filter (fun s => s ≠ err.id)) ++ [err.id]) := by
  refine ⟨?_, ?_, ?_, ?_⟩
  · intro msgs targetId responseText
    rw [resolveSuccess, List.map_map]
    refine List.map_congr_left (fun m _ => ?_)
    by_cases h : m.id = targetId <;> simp [h]
  · intro msgs targetId contentText imageUrl
    rw [resolveImageSuccess, List.map_map]
    refine List.map_congr_left (fun m _ => ?_)
    by_cases h : m.id = targetId <;> simp [h]
  · intro msgs targetId responseText m hm
    constructor
    · intro hne
      have := List.mem_map_of_mem
        (fun x => if x.id = targetId then
          ({ x with content := responseText, isLoading := false } : Message) else x) hm
      simpa [resolveSuccess, hne] using this
    · intro heq
      have := List.mem_map_of_mem
        (fun x => if x.id = targetId then
          ({ x with content := responseText, isLoading := false } : Message) else x) hm
      simpa [resolveSuccess, heq] using this
  · intro msgs err
    induction msgs with
    | nil => rfl
    | cons m ms ih =>
      by_cases h : m.id = err.id
      · simpa [resolveFailure, h] using ih
      · simpa [resolveFailure, h] using ih

/-- C1 witness: the amended statements evaluated on the two-turn demo
transcript. -/
theorem c1_witness :
    (resolveSuccess c1Msgs ("loading-1") ("hi")).map Message.id = c1Msgs.map Message.id ∧
    ({ c1Placeholder with content := "hi", isLoading := false } : Message) ∈
      resolveSuccess c1Msgs ("loading-1") ("hi") ∧
    (resolveFailure c1Msgs c1Err).map Message.id =
      ((c1Msgs.map Message.id).filter (fun s => s ≠ c1Err.id)) ++ [c1Err.id] :=
  ⟨c1_amended.1 c1Msgs ("loading-1") ("hi"),
   (c1_amended.2.2.1 c1Msgs ("loading-1") ("hi") c1Placeholder (by decide)).2 (by decide),
   c1_amended.2.2.2 c1Msgs c1Err⟩

/-- C2: the claim says both scans classify exactly the same fenced
blocks as runnable, in particular treating an absent language tag the
same way.  On a single untagged block the render-time scan checks
whether "plaintext" is a supported alias (it is not) and yields no
fragment, while the handoff scan includes the block unconditionally. -/
theorem c2_counterexample :
    scanFenced c2Untagged = [RawSeg.fence ("") ("foo")] ∧
    renderCodeFragments c2Untagged = [] ∧
    runnableCodeBlocks c2Untagged = [⟨"foo", "plaintext"⟩] := by
  decide

/-- C2 (amended): on fences with a non-empty language tag the two scans
use the same runnability test and select the same blocks in the same
order (the handoff list additionally lowercases the tag and trims the
body); they disagree exactly on untagged fences, which the render scan
rejects and the handoff scan accepts. -/
theorem c2_amended :
    (∀ lang : String, lang ≠ "" → renderRunnableTag lang = handoffRunnableTag lang) ∧
    (renderRunnableTag "" = false ∧ handoffRunnableTag "" = true) ∧
    (∀ s : String, (scanFenced s).all fenceTagged = true →
      runnableCodeBlocks s =
        (renderCodeFragments s).map
          (fun fr => (⟨jsTrim fr.code, lowerStr fr.language⟩ : CodeFragment))) := by
  refine ⟨?_, by decide, ?_⟩
  · intro lang hl
    have hlow : ¬(lowerStr lang = "") := fun hc => hl ((lowerStr_eq_empty_iff lang).mp hc)
    simp [renderRunnableTag, handoffRunnableTag, hlow, hl]
  · intro s hs
    exact frag_agree_aux (scanFenced s) hs

/-- C2 witness: agreement evaluated on a tag with non-canonical case and
on a message whose only fence is tagged. -/
theorem c2_witness :
    renderRunnableTag ("Python") = handoffRunnableTag ("Python") ∧
    runnableCodeBlocks c2Tagged =
      (renderCodeFragments c2Tagged).map
        (fun fr => (⟨jsTrim fr.code, lowerStr fr.language⟩ : CodeFragment)) :=
  ⟨c2_amended.1 ("Python") (by decide), c2_amended.2.2 c2Tagged (by decide)⟩

/-- C3: the claim says that a chat turn with unanalyzed attached files
invokes the file-analysis orchestrator and awaits it before the provider
call.  On a concrete chat turn whose file has no analysis, the submit
handler issues the provider call and no analysis invocation at all. -/
theorem c3_counterexample :
    dispatchPath c3State = TurnPath.chatPath ∧
    optTruthy c3File.analysis = false ∧
    (submitCalls demoFmt c3State).any isProviderCall = true ∧
    (submitCalls demoFmt c3State).any isAnalysisCall = false := by
  decide

/-- C3 (amended): the submit handler never invokes file analysis on any
path; the provider payload is built synchronously from each file's
current state — when an analysis result is already present (produced by
the upload component before submission) its text is rendered, with no
analysis call at submit time. -/
theorem c3_amended :
    (∀ (fmtSize : Nat → String) (s : TurnState),
      (submitCalls fmtSize s).any isAnalysisCall = false) ∧
    (∀ (fmtSize : Nat → String) (idx : Nat) (f : UploadedFile),
      optTruthy f.analysis = true →
      renderFileEntry fmtSize idx f =
        ("\n" ++ toString (idx + 1) ++ ". **" ++ f.name ++ "** (" ++ f.type ++ ", " ++
          fmtSize f.size ++ ")\n") ++ ("\n" ++ optStr f.analysis ++ "\n\n")) := by
  constructor
  · intro fmtSize s
    cases hd : dispatchPath s
    · simp [submitCalls, hd]
    · simp [submitCalls, hd, isAnalysisCall]
    · simp only [submitCalls, hd]
      split <;> simp [isAnalysisCall]
    · simp only [submitCalls, hd]
      split
      · simp [isAnalysisCall]
      · split
        · simp [isAnalysisCall]
        · split <;> simp [isAnalysisCall]
  · intro fmtSize idx f h
    simp [renderFileEntry, h]

/-- C3 witness: the amended statements evaluated on the unanalyzed-file
turn and on a file with a completed analysis. -/
theorem c3_witness :
    (submitCalls demoFmt c3State).any isAnalysisCall = false ∧
    renderFileEntry demoFmt 0 c3AnalyzedFile =
      ("\n" ++ toString (0 + 1) ++ ". **" ++ c3AnalyzedFile.name ++ "** (" ++
        c3AnalyzedFile.type ++ ", " ++ demoFmt c3AnalyzedFile.size ++ ")\n") ++
      ("\n" ++ optStr c3AnalyzedFile.analysis ++ "\n\n") :=
  ⟨c3_amended.1 demoFmt c3State, c3_amended.2 demoFmt 0 c3AnalyzedFile (by decide)⟩

/-- C4: rendering a text-like uploaded file without an analysis result:
content over the 50000-character budget is cut to exactly the first
50000 characters and followed by the truncation marker line; content at
or under the budget is rendered verbatim with nothing appended. -/
theorem c4_truncation :
    ∀ (fmtSize : Nat → String) (idx : Nat) (f : UploadedFile),
      optTruthy f.analysis = false → isTextLikeFile f = true →
      (strLen f.content > MAX_FILE_CONTENT_CHARS →
        renderFileEntry fmtSize idx f =
          ("\n" ++ toString (idx + 1) ++ ". **" ++ f.name ++ "** (" ++ f.type ++ ", " ++
            fmtSize f.size ++ ")\n") ++
          ("Content:\n\x60\x60\x60\n" ++ strTake f.content MAX_FILE_CONTENT_CHARS ++
            "\n\x60\x60\x60\n" ++
            ("[Content truncated - showing first " ++ toString MAX_FILE_CONTENT_CHARS ++
              " characters of " ++ toString (strLen f.content) ++ " total]\n")) ∧
        strLen (strTake f.content MAX_FILE_CONTENT_CHARS) = MAX_FILE_CONTENT_CHARS) ∧
      (strLen f.content ≤ MAX_FILE_CONTENT_CHARS →
        renderFileEntry fmtSize idx f =
          ("\n" ++ toString (idx + 1) ++ ". **" ++ f.name ++ "** (" ++ f.type ++ ", " ++
            fmtSize f.size ++ ")\n") ++
          ("Content:\n\x60\x60\x60\n" ++ f.content ++ "\n\x60\x60\x60\n")) := by
  intro fmtSize idx f h1 h2
  constructor
  · intro h3
    constructor
    · simp [renderFileEntry, h1, h2, h3]
    · show (f.content.data.take MAX_FILE_CONTENT_CHARS).length = MAX_FILE_CONTENT_CHARS
      rw [List.length_take]
      have h3' : MAX_FILE_CONTENT_CHARS < f.content.data.length := h3
      omega
  · intro h3
    have h4 : ¬(strLen f.content > MAX_FILE_CONTENT_CHARS) := by omega
    simp [renderFileEntry, h1, h2, h4]

/-- C4 witness: the truncated branch evaluated on a 50001-character
text file, giving exactly 50000 rendered characters. -/
theorem c4_witness :
    strLen (strTake c4BigFile.content MAX_FILE_CONTENT_CHARS) = MAX_FILE_CONTENT_CHARS := by
  have hlen : strLen c4BigFile.content = 50001 := by
    show (List.replicate 50001 'a').length = 50001
    rw [List.length_replicate]
  exact ((c4_truncation demoFmt 0 c4BigFile (by decide) (by decide)).1
    (by rw [hlen]; decide)).2

/-- C5: mode dispatch priority for every guarded turn — web-search mode
with non-empty text wins first; otherwise the image-generation provider
selects the image path; otherwise the chat path is taken. -/
theorem c5_dispatch :
    ∀ s : TurnState, ¬(jsTrim s.input = "" ∧ s.uploadedFiles.length = 0) →
      ((s.isWebSearchEnabled = true ∧ jsTrim s.input ≠ "") →
        dispatchPath s = TurnPath.webSearchPath) ∧
      (¬(s.isWebSearchEnabled = true ∧ jsTrim s.input ≠ "") →
        s.providerId = "rapidapi" → dispatchPath s = TurnPath.imageGenPath) ∧
      (¬(s.isWebSearchEnabled = true ∧ jsTrim s.input ≠ "") →
        s.providerId ≠ "rapidapi" → dispatchPath s = TurnPath.chatPath) := by
  intro s hg
  refine ⟨?_, ?_, ?_⟩
  · intro h1
    simp only [dispatchPath]
    rw [if_neg hg, if_pos h1]
  · intro h1 h2
    simp only [dispatchPath]
    rw [if_neg hg, if_neg h1, if_pos h2]
  · intro h1 h2
    simp only [dispatchPath]
    rw [if_neg hg, if_neg h1, if_neg h2]

/-- C5 witness: the three dispatch outcomes on concrete guarded turns. -/
theorem c5_witness :
    dispatchPath c5State = TurnPath.webSearchPath ∧
    dispatchPath c6ImgState = TurnPath.imageGenPath ∧
    dispatchPath c3State = TurnPath.chatPath :=
  ⟨(c5_dispatch c5State (by decide)).1 (by decide),
   (c5_dispatch c6ImgState (by decide)).2.1 (by decide) (by decide),
   (c5_dispatch c3State (by decide)).2.2 (by decide) (by decide)⟩

/-- C6: a turn with empty/whitespace text and no files is a no-op — no
transcript entry is appended and no collaborator is called; moreover
with empty text the web-search path is never taken, and even when
dispatch reaches the image-generation path (files alone), that path
appends nothing and calls nothing. -/
theorem c6_guard :
    ∀ (fmtSize : Nat → String) (s : TurnState) (now1 now2 : Nat),
      jsTrim s.input = "" →
      (s.uploadedFiles = [] →
        submitAppends fmtSize s now1 now2 = [] ∧ submitCalls fmtSize s = []) ∧
      dispatchPath s ≠ TurnPath.webSearchPath ∧
      (dispatchPath s = TurnPath.imageGenPath →
        submitAppends fmtSize s now1 now2 = [] ∧ submitCalls fmtSize s = []) := by
  intro fmtSize s now1 now2 h
  refine ⟨?_, ?_, ?_⟩
  · intro hf
    have hd : dispatchPath s = TurnPath.noTurn := by
      simp [dispatchPath, h, hf]
    exact ⟨by simp [submitAppends, hd], by simp [submitCalls, hd]⟩
  · intro hc
    simp only [dispatchPath] at hc
    split_ifs at hc with h1 h2 h3
    simp_all
  · intro hd
    exact ⟨by simp [submitAppends, hd, h], by simp [submitCalls, hd, h]⟩

/-- C6 witness: the guard on the empty turn, and the
image-generation path with whitespace text plus an attached file. -/
theorem c6_witness :
    (submitAppends demoFmt c6EmptyState 1 2 = [] ∧ submitCalls demoFmt c6EmptyState = []) ∧
    (submitAppends demoFmt c6ImgState 1 2 = [] ∧ submitCalls demoFmt c6ImgState = []) :=
  ⟨(c6_guard demoFmt c6EmptyState 1 2 (by decide)).1 (by decide),
   (c6_guard demoFmt c6ImgState 1 2 (by decide)).2.2 (by decide)⟩

/-- C7: the claim says every chat-path provider payload is the last ten
prior messages followed by the current message.  On a chat turn with the
Google provider and a file carrying an upload reference, the single
outbound call sends only the prompt text and file references — none of
the eleven prior messages are included. -/
theorem c7_counterexample :
    dispatchPath c7State = TurnPath.chatPath ∧
    c7State.messages.length = 11 ∧
    submitCalls demoFmt c7State = [ExtCall.googleFilesCall ("hi") [c7Ref] ("gem")] := by
  decide

/-- C7 (amended): on the chat path's fallback branch (no Google upload
reference in play) the outbound call carries the bounded history plus
the current message; the bound keeps everything when at most ten prior
messages exist, and exactly the final ten — a suffix of the transcript —
when more exist. -/
theorem c7_amended :
    (∀ (fmtSize : Nat → String) (s : TurnState),
      dispatchPath s = TurnPath.chatPath →
      ¬((filesWithUploads s.uploadedFiles).length ≠ 0 ∧ s.providerId = "google") →
      (s.providerId = "openrouter" ∨ s.providerId = "google") →
      submitCalls fmtSize s =
        [ExtCall.providerCall s.providerId s.modelId
          (chatPayload s.messages
            (s.input ++ formatFilesForMessage fmtSize s.uploadedFiles))]) ∧
    (∀ (prior : List Message) (content : String), prior.length ≤ 10 →
      chatPayload prior content =
        prior.map (fun m => (⟨m.role, m.content⟩ : ChatMsg)) ++
          [⟨Role.user, content⟩]) ∧
    (∀ (prior : List Message) (content : String), 10 < prior.length →
      chatPayload prior content =
        (prior.drop (prior.length - 10)).map (fun m => (⟨m.role, m.content⟩ : ChatMsg)) ++
          [⟨Role.user, content⟩] ∧
      (prior.drop (prior.length - 10)).length = 10 ∧
      prior.take (prior.length - 10) ++ prior.drop (prior.length - 10) = prior) := by
  refine ⟨?_, ?_, ?_⟩
  · intro fmtSize s hd hng hp
    simp only [submitCalls, hd]
    rw [if_neg hng]
    rcases hp with h | h <;> simp [h]
  · intro prior content hle
    simp [chatPayload, sliceLast, MAX_CONVERSATION_HISTORY_MESSAGES,
      Nat.sub_eq_zero_of_le hle]
  · intro prior content hgt
    refine ⟨rfl, ?_, List.take_append_drop _ _⟩
    rw [List.length_drop]
    omega

/-- C7 witness: the fallback-branch call with eleven prior messages, and
the ten-element bound on that history. -/
theorem c7_witness :
    submitCalls demoFmt c7FallbackState =
      [ExtCall.providerCall c7FallbackState.providerId c7FallbackState.modelId
        (chatPayload c7FallbackState.messages
          (c7FallbackState.input ++ formatFilesForMessage demoFmt c7FallbackState.uploadedFiles))] ∧
    (c7Prior.drop (c7Prior.length - 10)).length = 10 :=
  ⟨c7_amended.1 demoFmt c7FallbackState (by decide) (by decide) (Or.inl (by decide)),
   (c7_amended.2.2 c7Prior ("x") (by decide)).2.1⟩

/-- C8: the execution-output composition yields exactly the trimmed
Output section when only stdout is set and no stdin was supplied, and
exactly the fixed no-output message when every section is empty. -/
theorem c8_output :
    ∀ (out : String) (st : SandboxStatus), out ≠ "" →
      composeOutput ("") ⟨some out, none, none, none, st⟩ =
        jsTrim ("Output:\n" ++ out ++ "\n\n") ∧
      composeOutput ("") ⟨none, none, none, none, st⟩ =
        "Code executed successfully with no output" := by
  intro out st hout
  constructor
  · have hne : jsTrim ("Output:\n" ++ out ++ "\n\n") ≠ "" := by
      refine jsTrim_ne_empty _ 'O' ?_ (by decide)
      simp only [String.data_append]
      refine List.mem_append.mpr (Or.inl (List.mem_append.mpr (Or.inl ?_)))
      decide
    simp [composeOutput, optTruthy, optStr, hout, hne]
  · simp [composeOutput, optTruthy]
    decide

/-- C8 witness: the composition on a concrete stdout-only result. -/
theorem c8_witness :
    composeOutput ("") ⟨some ("hello"), none, none, none, ⟨3, "Accepted"⟩⟩ =
      jsTrim ("Output:\n" ++ "hello" ++ "\n\n") ∧
    composeOutput ("") ⟨none, none, none, none, (⟨3, "Accepted"⟩ : SandboxStatus)⟩ =
      "Code executed successfully with no output" :=
  c8_output ("hello") ⟨3, "Accepted"⟩ (by decide)

/-- C9: running a fragment whose source contains a Python-style input
call with empty or whitespace-only stdin short-circuits: the execution
state becomes the fixed not-running needs-input message, the input panel
is expanded, and the execution collaborator is never invoked. -/
theorem c9_needs_input :
    ∀ (code language stdinArg : String),
      strContains code ("input(") = true → jsTrim stdinArg = "" →
      wsRunCode code language stdinArg =
        WsOutcome.blocked ⟨false, needsInputMessage⟩ true ∧
      wsCalls (wsRunCode code language stdinArg) = [] := by
  intro code language stdinArg h1 h2
  have hn : needsInputHeuristic code = true := by
    simp [needsInputHeuristic, h1]
  constructor
  · simp [wsRunCode, hn, h2]
  · simp [wsRunCode, hn, h2, wsCalls]

/-- C9 witness: the short-circuit on a concrete Python fragment with
whitespace-only stdin. -/
theorem c9_witness :
    wsRunCode c9Code ("python") ("  ") =
      WsOutcome.blocked ⟨false, needsInputMessage⟩ true ∧
    wsCalls (wsRunCode c9Code ("python") ("  ")) = [] :=
  c9_needs_input c9Code ("python") ("  ") (by decide) (by decide)

/-- C10: executeCode never returns a failure-status result — a returned
ExecutionResult always has status id at most 3, and a response whose
status id exceeds 3 becomes a thrown error whose message contains the
status description and the first available of decoded stderr, decoded
compile output, and the response message. -/
theorem c10_status_guard :
    ∀ (decode : String → String) (resp : SandboxResponse),
      (∀ r : ExecutionResult, responsePhase decode resp = Except.ok r → r.status.id ≤ 3) ∧
      (resp.status.id > 3 →
        responsePhase decode resp =
          Except.error ("Failed to execute code: Execution failed (" ++
            resp.status.description ++ "): " ++ failDetail decode resp) ∧
        strContains ("Failed to execute code: Execution failed (" ++
            resp.status.description ++ "): " ++ failDetail decode resp)
          resp.status.description = true ∧
        strContains ("Failed to execute code: Execution failed (" ++
            resp.status.description ++ "): " ++ failDetail decode resp)
          (failDetail decode resp) = true) := by
  intro decode resp
  constructor
  · intro r hr
    simp only [responsePhase] at hr
    by_cases hgt : resp.status.id > 3
    · rw [if_pos hgt] at hr
      exact absurd hr (by simp)
    · rw [if_neg hgt] at hr
      have hok := Except.ok.inj hr
      have hst : r.status = resp.status := by rw [← hok]
      rw [hst]
      omega
  · intro hgt
    refine ⟨by simp [responsePhase, hgt], ?_, strContains_suffix _ _⟩
    have hassoc :
        ("Failed to execute code: Execution failed (" ++ resp.status.description ++
          "): " ++ failDetail decode resp) =
        ("Failed to execute code: Execution failed (" ++ resp.status.description ++
          ("): " ++ failDetail decode resp)) := by
      rw [String.append_assoc]
    rw [hassoc]
    exact strContains_concat _ _ _

/-- C10 witness: a returned accepted result has status id at most 3, and
the failure response with status id 6 produces the classified error. -/
theorem c10_witness :
    (⟨some ("out"), none, none, none, ⟨3, "Accepted"⟩⟩ : ExecutionResult).status.id ≤ 3 ∧
    responsePhase (fun s => s) c10FailResp =
      Except.error ("Failed to execute code: Execution failed (" ++
        c10FailResp.status.description ++ "): " ++ failDetail (fun s => s) c10FailResp) ∧
    strContains ("Failed to execute code: Execution failed (" ++
        c10FailResp.status.description ++ "): " ++ failDetail (fun s => s) c10FailResp)
      c10FailResp.status.description = true :=
  ⟨(c10_status_guard (fun s => s) c10OkResp).1
      ⟨some ("out"), none, none, none, ⟨3, "Accepted"⟩⟩ (by rfl),
   ((c10_status_guard (fun s => s) c10FailResp).2 (by decide)).1,
   ((c10_status_guard (fun s => s) c10FailResp).2 (by decide)).2.1⟩

end HanibalChat
